import Mathlib

/-!
Verification of the forge-sdk-python client: a shallow embedding of
`src/forge_sdk/types.py`, `src/forge_sdk/error.py` and
`src/forge_sdk/client.py` (the `ForgeClient` / `RenderRequestBuilder`
pair), together with theorems settling the specification's claims about
payload serialization, error mapping and URL normalization.

Modelling conventions:
- Python `None`-able fields become `Option`; Python `float` arguments are
  modelled as exact rationals (`Rat`); Python `dict` payloads become
  insertion-ordered association lists `List (String × JVal)`.
- The HTTP transport is abstracted as a function parameter from URL (and
  payload, for POST) to an outcome: either a transport-level error
  (httpx.HTTPError) or a response with a status, an optional parsed JSON
  object body, and raw content bytes.
-/

namespace ForgeSdk

/-- Output format enum from types.py, with its wire `.value` strings. -/
inductive OutputFormat where
  | PDF | PNG | JPEG | BMP | TGA | QOI | SVG
  deriving DecidableEq

def OutputFormat.value : OutputFormat → String
  | .PDF => "pdf"
  | .PNG => "png"
  | .JPEG => "jpeg"
  | .BMP => "bmp"
  | .TGA => "tga"
  | .QOI => "qoi"
  | .SVG => "svg"

/-- Page orientation enum from types.py. -/
inductive Orientation where
  | PORTRAIT | LANDSCAPE
  deriving DecidableEq

def Orientation.value : Orientation → String
  | .PORTRAIT => "portrait"
  | .LANDSCAPE => "landscape"

/-- Document flow mode enum from types.py. -/
inductive Flow where
  | AUTO | PAGINATE | CONTINUOUS
  deriving DecidableEq

def Flow.value : Flow → String
  | .AUTO => "auto"
  | .PAGINATE => "paginate"
  | .CONTINUOUS => "continuous"

/-- Dithering algorithm enum from types.py. -/
inductive DitherMethod where
  | NONE | FLOYD_STEINBERG | ATKINSON | ORDERED
  deriving DecidableEq

def DitherMethod.value : DitherMethod → String
  | .NONE => "none"
  | .FLOYD_STEINBERG => "floyd-steinberg"
  | .ATKINSON => "atkinson"
  | .ORDERED => "ordered"

/-- Built-in color palette preset enum from types.py. -/
inductive Palette where
  | AUTO | BLACK_WHITE | GRAYSCALE | EINK
  deriving DecidableEq

def Palette.value : Palette → String
  | .AUTO => "auto"
  | .BLACK_WHITE => "bw"
  | .GRAYSCALE => "grayscale"
  | .EINK => "eink"

/-- Watermark layer position enum from types.py. -/
inductive WatermarkLayer where
  | OVER | UNDER
  deriving DecidableEq

def WatermarkLayer.value : WatermarkLayer → String
  | .OVER => "over"
  | .UNDER => "under"

/-- PDF standard compliance enum from types.py. -/
inductive PdfStandard where
  | NONE | A2B | A3B
  deriving DecidableEq

def PdfStandard.value : PdfStandard → String
  | .NONE => "none"
  | .A2B => "pdf/a-2b"
  | .A3B => "pdf/a-3b"

/-- Embedded-file relationship enum from types.py. -/
inductive EmbedRelationship where
  | ALTERNATIVE | SUPPLEMENT | DATA | SOURCE | UNSPECIFIED
  deriving DecidableEq

def EmbedRelationship.value : EmbedRelationship → String
  | .ALTERNATIVE => "alternative"
  | .SUPPLEMENT => "supplement"
  | .DATA => "data"
  | .SOURCE => "source"
  | .UNSPECIFIED => "unspecified"

/-- Barcode type enum from types.py. -/
inductive BarcodeType where
  | QR | CODE128 | EAN13 | UPCA | CODE39
  deriving DecidableEq

def BarcodeType.value : BarcodeType → String
  | .QR => "qr"
  | .CODE128 => "code128"
  | .EAN13 => "ean13"
  | .UPCA => "upca"
  | .CODE39 => "code39"

/-- Barcode anchor position enum from types.py. -/
inductive BarcodeAnchor where
  | TOP_LEFT | TOP_RIGHT | BOTTOM_LEFT | BOTTOM_RIGHT
  deriving DecidableEq

def BarcodeAnchor.value : BarcodeAnchor → String
  | .TOP_LEFT => "top-left"
  | .TOP_RIGHT => "top-right"
  | .BOTTOM_LEFT => "bottom-left"
  | .BOTTOM_RIGHT => "bottom-right"

/-- JSON-like values appearing in the render payload. Python `dict`s are
modelled as insertion-ordered association lists. -/
inductive JVal where
  | jstr : String → JVal
  | jint : Int → JVal
  | jnum : Rat → JVal
  | jbool : Bool → JVal
  | jarr : List JVal → JVal
  | jobj : List (String × JVal) → JVal

/-- A payload object: a Python dict in insertion order. -/
abbrev Payload := List (String × JVal)

/-- The discriminated palette choice stored in `RenderRequestBuilder._palette`:
either a `Palette` preset or a literal list of hex color strings
(`Union[Palette, list[str]]` in client.py). -/
inductive PaletteChoice where
  | preset : Palette → PaletteChoice
  | custom : List String → PaletteChoice
  deriving DecidableEq

/-- The client state set up by `ForgeClient.__init__`: the base URL with all
trailing slash characters stripped (`base_url.rstrip("/")`). The transport
handles are abstracted away. -/
structure ForgeClient where
  base_url : String
  deriving DecidableEq

/-- Python `str.rstrip("/")` on the character list: remove all trailing
slash characters. -/
def rstripSlashes (l : List Char) : List Char :=
  (l.reverse.dropWhile (fun c => c == '/')).reverse

/-- Translation of `ForgeClient.__init__`: store `base_url.rstrip("/")`. -/
def mkForgeClient (base_url : String) : ForgeClient :=
  { base_url := String.mk (rstripSlashes base_url.data) }

/-- The accumulated state of `RenderRequestBuilder` (client.py lines
125-163), one field per `self._*` attribute. The two fields
`pdf_watermark_pages` and `pdf_barcodes` are Modelled from the spec: the
`pdf_watermark_pages` and `pdf_barcode` setters are exercised by
`tests/test_client.py` and specified in spec sections 4.2 and 6, but the
snapshot of client.py under src/ predates them. -/
structure RenderRequestBuilder where
  client : ForgeClient
  html : Option String := none
  url : Option String := none
  format : OutputFormat := OutputFormat.PDF
  width : Option Int := none
  height : Option Int := none
  paper : Option String := none
  orientation : Option Orientation := none
  margins : Option String := none
  flow : Option Flow := none
  density : Option Rat := none
  background : Option String := none
  timeout : Option Int := none
  colors : Option Int := none
  palette : Option PaletteChoice := none
  dither : Option DitherMethod := none
  pdf_title : Option String := none
  pdf_author : Option String := none
  pdf_subject : Option String := none
  pdf_keywords : Option String := none
  pdf_creator : Option String := none
  pdf_bookmarks : Option Bool := none
  pdf_watermark_text : Option String := none
  pdf_watermark_image : Option String := none
  pdf_watermark_opacity : Option Rat := none
  pdf_watermark_rotation : Option Rat := none
  pdf_watermark_color : Option String := none
  pdf_watermark_font_size : Option Rat := none
  pdf_watermark_scale : Option Rat := none
  pdf_watermark_layer : Option WatermarkLayer := none
  pdf_standard : Option PdfStandard := none
  pdf_embedded_files : List Payload := []
  pdf_watermark_pages : Option String := none
  pdf_barcodes : List Payload := []

/-- Translation of `ForgeClient.render_html`. -/
def ForgeClient.render_html (c : ForgeClient) (html : String) : RenderRequestBuilder :=
  { client := c, html := some html }

/-- Translation of `ForgeClient.render_url`. -/
def ForgeClient.render_url (c : ForgeClient) (url : String) : RenderRequestBuilder :=
  { client := c, url := some url }

namespace RenderRequestBuilder

/-- Setter `format` (client.py line 165). -/
def setFormat (b : RenderRequestBuilder) (fmt : OutputFormat) : RenderRequestBuilder :=
  { b with format := fmt }

/-- Setter `width`. -/
def setWidth (b : RenderRequestBuilder) (px : Int) : RenderRequestBuilder :=
  { b with width := some px }

/-- Setter `height`. -/
def setHeight (b : RenderRequestBuilder) (px : Int) : RenderRequestBuilder :=
  { b with height := some px }

/-- Setter `paper`. -/
def setPaper (b : RenderRequestBuilder) (size : String) : RenderRequestBuilder :=
  { b with paper := some size }

/-- Setter `orientation`. -/
def setOrientation (b : RenderRequestBuilder) (o : Orientation) : RenderRequestBuilder :=
  { b with orientation := some o }

/-- Setter `margins`. -/
def setMargins (b : RenderRequestBuilder) (m : String) : RenderRequestBuilder :=
  { b with margins := some m }

/-- Setter `flow`. -/
def setFlow (b : RenderRequestBuilder) (f : Flow) : RenderRequestBuilder :=
  { b with flow := some f }

/-- Setter `density`. -/
def setDensity (b : RenderRequestBuilder) (dpi : Rat) : RenderRequestBuilder :=
  { b with density := some dpi }

/-- Setter `background`. -/
def setBackground (b : RenderRequestBuilder) (color : String) : RenderRequestBuilder :=
  { b with background := some color }

/-- Setter `timeout`. -/
def setTimeout (b : RenderRequestBuilder) (seconds : Int) : RenderRequestBuilder :=
  { b with timeout := some seconds }

/-- Setter `colors`. -/
def setColors (b : RenderRequestBuilder) (n : Int) : RenderRequestBuilder :=
  { b with colors := some n }

/-- Setter `palette` (client.py lines 220-226): stores the preset as-is, or
a literal sequence copied into a list. -/
def setPalette (b : RenderRequestBuilder) (p : PaletteChoice) : RenderRequestBuilder :=
  { b with palette := some p }

/-- Setter `dither`. -/
def setDither (b : RenderRequestBuilder) (method : DitherMethod) : RenderRequestBuilder :=
  { b with dither := some method }

/-- Setter `pdf_title`. -/
def setPdfTitle (b : RenderRequestBuilder) (t : String) : RenderRequestBuilder :=
  { b with pdf_title := some t }

/-- Setter `pdf_author`. -/
def setPdfAuthor (b : RenderRequestBuilder) (a : String) : RenderRequestBuilder :=
  { b with pdf_author := some a }

/-- Setter `pdf_subject`. -/
def setPdfSubject (b : RenderRequestBuilder) (s : String) : RenderRequestBuilder :=
  { b with pdf_subject := some s }

/-- Setter `pdf_keywords`. -/
def setPdfKeywords (b : RenderRequestBuilder) (k : String) : RenderRequestBuilder :=
  { b with pdf_keywords := some k }

/-- Setter `pdf_creator`. -/
def setPdfCreator (b : RenderRequestBuilder) (c : String) : RenderRequestBuilder :=
  { b with pdf_creator := some c }

/-- Setter `pdf_bookmarks`. -/
def setPdfBookmarks (b : RenderRequestBuilder) (v : Bool) : RenderRequestBuilder :=
  { b with pdf_bookmarks := some v }

/-- Setter `pdf_watermark_text`. -/
def setPdfWatermarkText (b : RenderRequestBuilder) (t : String) : RenderRequestBuilder :=
  { b with pdf_watermark_text := some t }

/-- Setter `pdf_watermark_image`. -/
def setPdfWatermarkImage (b : RenderRequestBuilder) (base64_data : String) : RenderRequestBuilder :=
  { b with pdf_watermark_image := some base64_data }

/-- Setter `pdf_watermark_opacity`. -/
def setPdfWatermarkOpacity (b : RenderRequestBuilder) (o : Rat) : RenderRequestBuilder :=
  { b with pdf_watermark_opacity := some o }

/-- Setter `pdf_watermark_rotation`. -/
def setPdfWatermarkRotation (b : RenderRequestBuilder) (d : Rat) : RenderRequestBuilder :=
  { b with pdf_watermark_rotation := some d }

/-- Setter `pdf_watermark_color`. -/
def setPdfWatermarkColor (b : RenderRequestBuilder) (c : String) : RenderRequestBuilder :=
  { b with pdf_watermark_color := some c }

/-- Setter `pdf_watermark_font_size`. -/
def setPdfWatermarkFontSize (b : RenderRequestBuilder) (s : Rat) : RenderRequestBuilder :=
  { b with pdf_watermark_font_size := some s }

/-- Setter `pdf_watermark_scale`. -/
def setPdfWatermarkScale (b : RenderRequestBuilder) (s : Rat) : RenderRequestBuilder :=
  { b with pdf_watermark_scale := some s }

/-- Setter `pdf_watermark_layer`. -/
def setPdfWatermarkLayer (b : RenderRequestBuilder) (l : WatermarkLayer) : RenderRequestBuilder :=
  { b with pdf_watermark_layer := some l }

/-- Setter `pdf_standard`. -/
def setPdfStandard (b : RenderRequestBuilder) (standard : PdfStandard) : RenderRequestBuilder :=
  { b with pdf_standard := some standard }

/-- Modelled from the spec: setter `pdf_watermark_pages` (watermark page-scope
selector), specified in spec sections 3 and 6 and exercised by
tests/test_client.py, but absent from the src/ snapshot of client.py. -/
def setPdfWatermarkPages (b : RenderRequestBuilder) (p : String) : RenderRequestBuilder :=
  { b with pdf_watermark_pages := some p }

/-- The embedded-file dict built by `pdf_attach` (client.py lines 318-324):
path and data always, then each optional argument only when supplied. -/
def attachEntry (path data : String) (mime_type description : Option String)
    (relationship : Option EmbedRelationship) : Payload :=
  [("path", JVal.jstr path), ("data", JVal.jstr data)]
    ++ (match mime_type with
        | some m => [("mime_type", JVal.jstr m)]
        | none => [])
    ++ (match description with
        | some d => [("description", JVal.jstr d)]
        | none => [])
    ++ (match relationship with
        | some r => [("relationship", JVal.jstr r.value)]
        | none => [])

/-- Translation of `pdf_attach` (client.py lines 308-326): builds one entry
dict and appends it to `_pdf_embedded_files`. -/
def pdf_attach (b : RenderRequestBuilder) (path data : String)
    (mime_type description : Option String)
    (relationship : Option EmbedRelationship) : RenderRequestBuilder :=
  { b with pdf_embedded_files :=
      b.pdf_embedded_files ++ [attachEntry path data mime_type description relationship] }

/-- Modelled from the spec: the barcode dict appended by `pdf_barcode`
(`addBarcode(type, data, [anchor], ...)` in spec section 4.2; wire shape
`pdf.barcodes[]`: type, data, anchor? in spec section 6). -/
def barcodeEntry (t : BarcodeType) (data : String) (anchor : Option BarcodeAnchor) : Payload :=
  [("type", JVal.jstr t.value), ("data", JVal.jstr data)]
    ++ (match anchor with
        | some a => [("anchor", JVal.jstr a.value)]
        | none => [])

/-- Modelled from the spec: setter `pdf_barcode`, which appends one barcode
entry per call in call order (spec section 4.2), exercised by
tests/test_client.py but absent from the src/ snapshot of client.py. -/
def pdf_barcode (b : RenderRequestBuilder) (t : BarcodeType) (data : String)
    (anchor : Option BarcodeAnchor) : RenderRequestBuilder :=
  { b with pdf_barcodes := b.pdf_barcodes ++ [barcodeEntry t data anchor] }

end RenderRequestBuilder

/-- One optional payload entry: the dict insertion
`if o is not None: payload[k] = f(o)`. -/
def optE {α : Type} (k : String) (o : Option α) (f : α → JVal) : Payload :=
  match o with
  | some v => [(k, f v)]
  | none => []

namespace RenderRequestBuilder

/-- The scalar dict insertions of `_build_payload` (client.py lines
331-352), in source order. -/
def scalarEntries (b : RenderRequestBuilder) : Payload :=
  optE "html" b.html JVal.jstr
    ++ optE "url" b.url JVal.jstr
    ++ optE "width" b.width JVal.jint
    ++ optE "height" b.height JVal.jint
    ++ optE "paper" b.paper JVal.jstr
    ++ optE "orientation" b.orientation (fun o => JVal.jstr o.value)
    ++ optE "margins" b.margins JVal.jstr
    ++ optE "flow" b.flow (fun f => JVal.jstr f.value)
    ++ optE "density" b.density JVal.jnum
    ++ optE "background" b.background JVal.jstr
    ++ optE "timeout" b.timeout JVal.jint

/-- The `has_quantize` flag of `_build_payload` (client.py lines 354-358). -/
def has_quantize (b : RenderRequestBuilder) : Bool :=
  b.colors.isSome || b.palette.isSome || b.dither.isSome

/-- The conditional `palette` insertion inside the `q` dict (client.py lines
363-367): the enum wire string for a preset, the literal string sequence for
a custom palette. -/
def paletteEntry (p : Option PaletteChoice) : Payload :=
  match p with
  | some (.preset p) => [("palette", JVal.jstr p.value)]
  | some (.custom l) => [("palette", JVal.jarr (l.map JVal.jstr))]
  | none => []

/-- The `q` dict of `_build_payload` (client.py lines 360-369): only the set
members. -/
def quantObj (b : RenderRequestBuilder) : Payload :=
  optE "colors" b.colors JVal.jint
    ++ paletteEntry b.palette
    ++ optE "dither" b.dither (fun d => JVal.jstr d.value)

/-- The conditional `quantize` insertion (client.py lines 359, 370). -/
def quantizeEntries (b : RenderRequestBuilder) : Payload :=
  if has_quantize b then [("quantize", JVal.jobj (quantObj b))] else []

/-- The `has_watermark` flag (client.py lines 372-381), extended with the
spec-modelled `pages` member of the watermark group. -/
def has_watermark (b : RenderRequestBuilder) : Bool :=
  b.pdf_watermark_text.isSome
    || b.pdf_watermark_image.isSome
    || b.pdf_watermark_opacity.isSome
    || b.pdf_watermark_rotation.isSome
    || b.pdf_watermark_color.isSome
    || b.pdf_watermark_font_size.isSome
    || b.pdf_watermark_scale.isSome
    || b.pdf_watermark_layer.isSome
    || b.pdf_watermark_pages.isSome

/-- The `wm` dict (client.py lines 413-429), with the spec-modelled `pages`
key appended after `layer` per spec section 6. -/
def wmObj (b : RenderRequestBuilder) : Payload :=
  optE "text" b.pdf_watermark_text JVal.jstr
    ++ optE "image_data" b.pdf_watermark_image JVal.jstr
    ++ optE "opacity" b.pdf_watermark_opacity JVal.jnum
    ++ optE "rotation" b.pdf_watermark_rotation JVal.jnum
    ++ optE "color" b.pdf_watermark_color JVal.jstr
    ++ optE "font_size" b.pdf_watermark_font_size JVal.jnum
    ++ optE "scale" b.pdf_watermark_scale JVal.jnum
    ++ optE "layer" b.pdf_watermark_layer (fun l => JVal.jstr l.value)
    ++ optE "pages" b.pdf_watermark_pages JVal.jstr

/-- The `has_pdf` flag (client.py lines 383-393), extended with the
spec-modelled non-empty barcodes disjunct (spec section 4.2: hasPdf is the
OR of all PDF-level scalar fields, hasWatermark, standard, and non-empty
embedded-files/barcodes sequences). -/
def has_pdf (b : RenderRequestBuilder) : Bool :=
  b.pdf_title.isSome
    || b.pdf_author.isSome
    || b.pdf_subject.isSome
    || b.pdf_keywords.isSome
    || b.pdf_creator.isSome
    || b.pdf_bookmarks.isSome
    || has_watermark b
    || b.pdf_standard.isSome
    || !b.pdf_embedded_files.isEmpty
    || !b.pdf_barcodes.isEmpty

/-- The conditional `embedded_files` insertion inside the `p` dict
(client.py lines 410-411): the accumulated sequence, only when non-empty. -/
def embeddedEntries (b : RenderRequestBuilder) : Payload :=
  if b.pdf_embedded_files.isEmpty then []
  else [("embedded_files", JVal.jarr (b.pdf_embedded_files.map JVal.jobj))]

/-- Modelled from the spec: the conditional `barcodes` insertion inside the
`p` dict (spec section 4.2: the barcodes sequence, if non-empty). -/
def barcodeEntries (b : RenderRequestBuilder) : Payload :=
  if b.pdf_barcodes.isEmpty then []
  else [("barcodes", JVal.jarr (b.pdf_barcodes.map JVal.jobj))]

/-- The conditional `watermark` insertion inside the `p` dict (client.py
lines 412-430). -/
def watermarkEntries (b : RenderRequestBuilder) : Payload :=
  if has_watermark b then [("watermark", JVal.jobj (wmObj b))] else []

/-- The `p` dict (client.py lines 395-430): set scalar members, standard,
the embedded-files sequence when non-empty, the spec-modelled barcodes
sequence when non-empty, then the watermark sub-object when any watermark
member is set. -/
def pdfObj (b : RenderRequestBuilder) : Payload :=
  optE "title" b.pdf_title JVal.jstr
    ++ optE "author" b.pdf_author JVal.jstr
    ++ optE "subject" b.pdf_subject JVal.jstr
    ++ optE "keywords" b.pdf_keywords JVal.jstr
    ++ optE "creator" b.pdf_creator JVal.jstr
    ++ optE "bookmarks" b.pdf_bookmarks JVal.jbool
    ++ optE "standard" b.pdf_standard (fun s => JVal.jstr s.value)
    ++ embeddedEntries b
    ++ barcodeEntries b
    ++ watermarkEntries b

/-- The conditional `pdf` insertion (client.py lines 394, 431). -/
def pdfEntries (b : RenderRequestBuilder) : Payload :=
  if has_pdf b then [("pdf", JVal.jobj (pdfObj b))] else []

/-- Translation of `_build_payload` (client.py lines 328-433): format first,
then the scalar entries, the quantize group, the pdf group, in dict
insertion order. -/
def buildPayload (b : RenderRequestBuilder) : Payload :=
  ("format", JVal.jstr b.format.value) :: (scalarEntries b ++ quantizeEntries b ++ pdfEntries b)

/-- State-threaded form of `_build_payload`: the method reads builder fields
and writes only its local dicts, so it returns the receiver state unchanged
alongside the payload. -/
def buildPayloadSt (b : RenderRequestBuilder) : RenderRequestBuilder × Payload :=
  (b, buildPayload b)

end RenderRequestBuilder

/-- Key-presence in a payload dict. -/
def hasKey (p : Payload) (k : String) : Bool :=
  p.any (fun e => k == e.1)

/-- An HTTP response as the send/health code observes it: the status code,
the result of `resp.json()` restricted to a flat string-valued object
(`none` when the body is unparseable JSON or not an object, so that
`body.get` raises), and the raw `resp.content` bytes. -/
structure HttpResponse where
  status : Nat
  jsonBody : Option (List (String × String))
  content : List Nat

/-- Outcome of one transport call: either an `httpx.HTTPError` raised before
a response is obtained, or a response. -/
inductive HttpOutcome where
  | transportError : String → HttpOutcome
  | response : HttpResponse → HttpOutcome

/-- Result of `send` / `send_sync`, folding the raised exceptions of
error.py into a sum: `ForgeConnectionError` carries its cause,
`ForgeServerError` carries status and message, success carries the raw
bytes. -/
inductive SendResult where
  | success : List Nat → SendResult
  | connectionError : String → SendResult
  | serverError : Nat → String → SendResult
  deriving DecidableEq

/-- The non-200 message extraction of `send` / `send_sync` (client.py lines
446-450 and 466-470): the `error` field of the parsed JSON body, falling
back to `HTTP <status>` when the body is unparseable or lacks the field. -/
def errorMessage (r : HttpResponse) : String :=
  match r.jsonBody with
  | some body => (body.lookup "error").getD ("HTTP " ++ toString r.status)
  | none => "HTTP " ++ toString r.status

/-- Translation of `RenderRequestBuilder.send` (client.py lines 435-453),
with the async transport abstracted as a function from URL and JSON payload
to an outcome. -/
def RenderRequestBuilder.send (b : RenderRequestBuilder)
    (net : String → Payload → HttpOutcome) : SendResult :=
  let payload := b.buildPayload
  match net (b.client.base_url ++ "/render") payload with
  | .transportError e => .connectionError e
  | .response r =>
    if r.status ≠ 200 then .serverError r.status (errorMessage r)
    else .success r.content

/-- Translation of `RenderRequestBuilder.send_sync` (client.py lines
455-473), with the sync transport abstracted the same way. -/
def RenderRequestBuilder.send_sync (b : RenderRequestBuilder)
    (net : String → Payload → HttpOutcome) : SendResult :=
  let payload := b.buildPayload
  match net (b.client.base_url ++ "/render") payload with
  | .transportError e => .connectionError e
  | .response r =>
    if r.status ≠ 200 then .serverError r.status (errorMessage r)
    else .success r.content

/-- Translation of `ForgeClient.health` (client.py lines 101-107): GET the
health endpoint, true exactly on status 200, false on any transport error. -/
def ForgeClient.health (c : ForgeClient) (net : String → HttpOutcome) : Bool :=
  match net (c.base_url ++ "/health") with
  | .transportError _ => false
  | .response r => r.status == 200

/-- Translation of `ForgeClient.health_sync` (client.py lines 109-115),
identical logic over the sync transport. -/
def ForgeClient.health_sync (c : ForgeClient) (net : String → HttpOutcome) : Bool :=
  match net (c.base_url ++ "/health") with
  | .transportError _ => false
  | .response r => r.status == 200

/-- The URL the health check targets (client.py lines 104, 112). -/
def healthUrl (c : ForgeClient) : String :=
  c.base_url ++ "/health"

/-- The URL the render request targets (client.py lines 440, 460). -/
def renderUrl (c : ForgeClient) : String :=
  c.base_url ++ "/render"

/-- One invocation of a supported option setter, with its argument: the
reified surface of `RenderRequestBuilder`'s fluent API. -/
inductive SetterCall where
  | cFormat (v : OutputFormat)
  | cWidth (v : Int)
  | cHeight (v : Int)
  | cPaper (v : String)
  | cOrientation (v : Orientation)
  | cMargins (v : String)
  | cFlow (v : Flow)
  | cDensity (v : Rat)
  | cBackground (v : String)
  | cTimeout (v : Int)
  | cColors (v : Int)
  | cPalette (v : PaletteChoice)
  | cDither (v : DitherMethod)
  | cPdfTitle (v : String)
  | cPdfAuthor (v : String)
  | cPdfSubject (v : String)
  | cPdfKeywords (v : String)
  | cPdfCreator (v : String)
  | cPdfBookmarks (v : Bool)
  | cPdfWatermarkText (v : String)
  | cPdfWatermarkImage (v : String)
  | cPdfWatermarkOpacity (v : Rat)
  | cPdfWatermarkRotation (v : Rat)
  | cPdfWatermarkColor (v : String)
  | cPdfWatermarkFontSize (v : Rat)
  | cPdfWatermarkScale (v : Rat)
  | cPdfWatermarkLayer (v : WatermarkLayer)
  | cPdfStandard (v : PdfStandard)
  | cPdfWatermarkPages (v : String)
  | cPdfAttach (path data : String) (mime_type description : Option String)
      (relationship : Option EmbedRelationship)
  | cPdfBarcode (t : BarcodeType) (data : String) (anchor : Option BarcodeAnchor)
  deriving DecidableEq

/-- Apply one reified setter call to a builder, delegating to the setter it
names. -/
def SetterCall.apply (s : SetterCall) (b : RenderRequestBuilder) : RenderRequestBuilder :=
  match s with
  | .cFormat v => b.setFormat v
  | .cWidth v => b.setWidth v
  | .cHeight v => b.setHeight v
  | .cPaper v => b.setPaper v
  | .cOrientation v => b.setOrientation v
  | .cMargins v => b.setMargins v
  | .cFlow v => b.setFlow v
  | .cDensity v => b.setDensity v
  | .cBackground v => b.setBackground v
  | .cTimeout v => b.setTimeout v
  | .cColors v => b.setColors v
  | .cPalette v => b.setPalette v
  | .cDither v => b.setDither v
  | .cPdfTitle v => b.setPdfTitle v
  | .cPdfAuthor v => b.setPdfAuthor v
  | .cPdfSubject v => b.setPdfSubject v
  | .cPdfKeywords v => b.setPdfKeywords v
  | .cPdfCreator v => b.setPdfCreator v
  | .cPdfBookmarks v => b.setPdfBookmarks v
  | .cPdfWatermarkText v => b.setPdfWatermarkText v
  | .cPdfWatermarkImage v => b.setPdfWatermarkImage v
  | .cPdfWatermarkOpacity v => b.setPdfWatermarkOpacity v
  | .cPdfWatermarkRotation v => b.setPdfWatermarkRotation v
  | .cPdfWatermarkColor v => b.setPdfWatermarkColor v
  | .cPdfWatermarkFontSize v => b.setPdfWatermarkFontSize v
  | .cPdfWatermarkScale v => b.setPdfWatermarkScale v
  | .cPdfWatermarkLayer v => b.setPdfWatermarkLayer v
  | .cPdfStandard v => b.setPdfStandard v
  | .cPdfWatermarkPages v => b.setPdfWatermarkPages v
  | .cPdfAttach p d m de r => b.pdf_attach p d m de r
  | .cPdfBarcode t d a => b.pdf_barcode t d a

/-- Discriminant of a setter call: which setter was called, ignoring the
argument. Two calls with the same tag are calls of the same setter. -/
def SetterCall.tag (s : SetterCall) : Nat :=
  match s with
  | .cFormat _ => 0
  | .cWidth _ => 1
  | .cHeight _ => 2
  | .cPaper _ => 3
  | .cOrientation _ => 4
  | .cMargins _ => 5
  | .cFlow _ => 6
  | .cDensity _ => 7
  | .cBackground _ => 8
  | .cTimeout _ => 9
  | .cColors _ => 10
  | .cPalette _ => 11
  | .cDither _ => 12
  | .cPdfTitle _ => 13
  | .cPdfAuthor _ => 14
  | .cPdfSubject _ => 15
  | .cPdfKeywords _ => 16
  | .cPdfCreator _ => 17
  | .cPdfBookmarks _ => 18
  | .cPdfWatermarkText _ => 19
  | .cPdfWatermarkImage _ => 20
  | .cPdfWatermarkOpacity _ => 21
  | .cPdfWatermarkRotation _ => 22
  | .cPdfWatermarkColor _ => 23
  | .cPdfWatermarkFontSize _ => 24
  | .cPdfWatermarkScale _ => 25
  | .cPdfWatermarkLayer _ => 26
  | .cPdfStandard _ => 27
  | .cPdfWatermarkPages _ => 28
  | .cPdfAttach _ _ _ _ _ => 29
  | .cPdfBarcode _ _ _ => 30

/-- Apply a sequence of reified setter calls left to right. -/
def applySetters (l : List SetterCall) (b : RenderRequestBuilder) : RenderRequestBuilder :=
  l.foldl (fun b s => s.apply b) b

open RenderRequestBuilder

/-- Membership test of an optional entry under an arbitrary key. -/
theorem any_optE {α : Type} (k k' : String) (o : Option α) (f : α → JVal) :
    (optE k o f).any (fun e => k' == e.1) = (o.isSome && (k' == k)) := by
  cases o <;> simp [optE]

/-- Membership test of the palette entry under an arbitrary key. -/
theorem any_paletteEntry (k' : String) (p : Option PaletteChoice) :
    (paletteEntry p).any (fun e => k' == e.1) = (p.isSome && (k' == "palette")) := by
  rcases p with _ | pc
  · simp [paletteEntry]
  · cases pc <;> simp [paletteEntry]

/-- Membership test of the conditional quantize insertion. -/
theorem any_quantizeEntries (b : RenderRequestBuilder) (k' : String) :
    (quantizeEntries b).any (fun e => k' == e.1) = (has_quantize b && (k' == "quantize")) := by
  unfold quantizeEntries
  cases h : has_quantize b <;> simp

/-- Membership test of the conditional pdf insertion. -/
theorem any_pdfEntries (b : RenderRequestBuilder) (k' : String) :
    (pdfEntries b).any (fun e => k' == e.1) = (has_pdf b && (k' == "pdf")) := by
  unfold pdfEntries
  cases h : has_pdf b <;> simp

/-- Membership test of the conditional embedded-files insertion. -/
theorem any_embeddedEntries (b : RenderRequestBuilder) (k' : String) :
    (embeddedEntries b).any (fun e => k' == e.1)
      = (!b.pdf_embedded_files.isEmpty && (k' == "embedded_files")) := by
  unfold embeddedEntries
  cases h : b.pdf_embedded_files.isEmpty <;> simp

/-- Membership test of the conditional barcodes insertion. -/
theorem any_barcodeEntries (b : RenderRequestBuilder) (k' : String) :
    (barcodeEntries b).any (fun e => k' == e.1)
      = (!b.pdf_barcodes.isEmpty && (k' == "barcodes")) := by
  unfold barcodeEntries
  cases h : b.pdf_barcodes.isEmpty <;> simp

/-- Membership test of the conditional watermark insertion. -/
theorem any_watermarkEntries (b : RenderRequestBuilder) (k' : String) :
    (watermarkEntries b).any (fun e => k' == e.1) = (has_watermark b && (k' == "watermark")) := by
  unfold watermarkEntries
  cases h : has_watermark b <;> simp

/-- The scalar entries never carry the key `quantize`. -/
theorem hasKey_scalar_quantize (b : RenderRequestBuilder) :
    hasKey (scalarEntries b) "quantize" = false := by
  simp [hasKey, scalarEntries, List.any_append, any_optE]

/-- The scalar entries never carry the key `pdf`. -/
theorem hasKey_scalar_pdf (b : RenderRequestBuilder) :
    hasKey (scalarEntries b) "pdf" = false := by
  simp [hasKey, scalarEntries, List.any_append, any_optE]

/-- The `pdf` key is present in the payload exactly when `has_pdf` holds. -/
theorem hasKey_buildPayload_pdf (b : RenderRequestBuilder) :
    hasKey b.buildPayload "pdf" = has_pdf b := by
  simp [hasKey, buildPayload, List.any_append, any_optE, scalarEntries,
    any_quantizeEntries, any_pdfEntries]

/-- The `quantize` key is present in the payload exactly when `has_quantize`
holds. -/
theorem hasKey_buildPayload_quantize (b : RenderRequestBuilder) :
    hasKey b.buildPayload "quantize" = has_quantize b := by
  simp [hasKey, buildPayload, List.any_append, any_optE, scalarEntries,
    any_quantizeEntries, any_pdfEntries]

/-- Lookup skips a leading entry with a different key. -/
theorem lookup_cons_ne (k a : String) (v : JVal) (l : Payload) (h : (k == a) = false) :
    List.lookup k ((a, v) :: l) = List.lookup k l := by
  simp [List.lookup, h]

/-- Lookup skips a prefix that does not carry the key. -/
theorem lookup_append_right (k : String) (l₁ l₂ : Payload) (h : hasKey l₁ k = false) :
    List.lookup k (l₁ ++ l₂) = List.lookup k l₂ := by
  induction l₁ with
  | nil => rfl
  | cons e l ih =>
    obtain ⟨a, v⟩ := e
    simp only [hasKey, List.any_cons, Bool.or_eq_false_iff] at h
    rw [List.cons_append, lookup_cons_ne k a v _ h.1]
    exact ih h.2

/-- Lookup under a different key skips an optional entry. -/
theorem lookup_optE_ne {α : Type} (k k' : String) (o : Option α) (f : α → JVal)
    (rest : Payload) (h : (k' == k) = false) :
    List.lookup k' (optE k o f ++ rest) = List.lookup k' rest := by
  cases o <;> simp [optE, List.lookup, h]

/-- Looking up `quantize` in the payload yields the `q` dict exactly when
some quantization member is set. -/
theorem lookup_buildPayload_quantize (b : RenderRequestBuilder) :
    List.lookup "quantize" b.buildPayload
      = if has_quantize b then some (JVal.jobj (quantObj b)) else none := by
  unfold buildPayload
  rw [lookup_cons_ne _ _ _ _ (by decide), List.append_assoc,
    lookup_append_right _ _ _ (hasKey_scalar_quantize b)]
  cases h : has_quantize b
  · simp only [quantizeEntries, h, if_false, List.nil_append]
    unfold pdfEntries
    cases has_pdf b <;> simp [List.lookup]
  · simp [quantizeEntries, h, List.lookup]

/-- Looking up `pdf` in the payload yields the `p` dict exactly when some
PDF-group member is set. -/
theorem lookup_buildPayload_pdf (b : RenderRequestBuilder) :
    List.lookup "pdf" b.buildPayload
      = if has_pdf b then some (JVal.jobj (pdfObj b)) else none := by
  unfold buildPayload
  rw [lookup_cons_ne _ _ _ _ (by decide), List.append_assoc,
    lookup_append_right _ _ _ (hasKey_scalar_pdf b)]
  have hq : hasKey (quantizeEntries b) "pdf" = false := by
    show (quantizeEntries b).any (fun e => "pdf" == e.1) = false
    rw [any_quantizeEntries]
    simp
  rw [lookup_append_right _ _ _ hq]
  cases h : has_pdf b <;> simp [pdfEntries, h, List.lookup]

/-- Every entry of an optional insertion carries its key. -/
theorem fst_of_mem_optE {α : Type} {k : String} {o : Option α} {f : α → JVal}
    {e : String × JVal} (h : e ∈ optE k o f) : e.1 = k := by
  cases o with
  | none => simp [optE] at h
  | some v =>
    simp [optE] at h
    rw [h]

/-- Every entry of the palette insertion carries the key `palette`. -/
theorem fst_of_mem_paletteEntry {p : Option PaletteChoice} {e : String × JVal}
    (h : e ∈ paletteEntry p) : e.1 = "palette" := by
  rcases p with _ | pc
  · simp [paletteEntry] at h
  · cases pc <;> (simp [paletteEntry] at h; rw [h])

/-- C3: a builder created from an HTML source with no option setters called
serializes to exactly the two-key payload format=pdf, html=the given text. -/
theorem minimal_html_payload (c : ForgeClient) (text : String) :
    (c.render_html text).buildPayload
      = [("format", JVal.jstr "pdf"), ("html", JVal.jstr text)] := by
  rfl

/-- C1: the payload carries a `pdf` key exactly when at least one PDF-group
field is set: a PDF scalar (title/author/subject/keywords/creator/bookmarks),
the standard, any watermark field, a non-empty embedded-files sequence, or a
non-empty barcodes sequence. -/
theorem pdf_key_presence (b : RenderRequestBuilder) :
    hasKey b.buildPayload "pdf" = true ↔
      (b.pdf_title ≠ none ∨ b.pdf_author ≠ none ∨ b.pdf_subject ≠ none
        ∨ b.pdf_keywords ≠ none ∨ b.pdf_creator ≠ none ∨ b.pdf_bookmarks ≠ none
        ∨ b.pdf_standard ≠ none
        ∨ b.pdf_watermark_text ≠ none ∨ b.pdf_watermark_image ≠ none
        ∨ b.pdf_watermark_opacity ≠ none ∨ b.pdf_watermark_rotation ≠ none
        ∨ b.pdf_watermark_color ≠ none ∨ b.pdf_watermark_font_size ≠ none
        ∨ b.pdf_watermark_scale ≠ none ∨ b.pdf_watermark_layer ≠ none
        ∨ b.pdf_watermark_pages ≠ none
        ∨ b.pdf_embedded_files ≠ [] ∨ b.pdf_barcodes ≠ []) := by
  rw [hasKey_buildPayload_pdf]
  simp [has_pdf, has_watermark, Option.isSome_iff_ne_none]
  tauto

/-- C1 witness: a builder with only a single watermark field set carries the
`pdf` key, and a builder with no PDF-group field set does not. -/
theorem pdf_key_presence_witness :
    hasKey (((mkForgeClient "http://h").render_html "x").setPdfWatermarkText "D").buildPayload
        "pdf" = true
      ∧ hasKey (((mkForgeClient "http://h").render_html "x").setWidth 3).buildPayload
        "pdf" = false := by
  constructor
  · exact (pdf_key_presence _).mpr (by simp [ForgeClient.render_html, setPdfWatermarkText])
  · have h := pdf_key_presence (((mkForgeClient "http://h").render_html "x").setWidth 3)
    rw [Bool.eq_false_iff]
    intro hc
    have hr := h.mp hc
    simp [ForgeClient.render_html, setWidth, mkForgeClient] at hr

/-- C2: the payload carries a `quantize` key exactly when one of colors,
palette or dither is set; the quantize object then appears under that key
and contains exactly the keys of the set members, with a preset palette
serialized as its enum wire string and a custom palette as the literal
sequence of hex strings. -/
theorem quantize_key_and_members (b : RenderRequestBuilder) :
    (hasKey b.buildPayload "quantize" = true
        ↔ (b.colors ≠ none ∨ b.palette ≠ none ∨ b.dither ≠ none))
      ∧ (has_quantize b = true →
          List.lookup "quantize" b.buildPayload = some (JVal.jobj (quantObj b)))
      ∧ hasKey (quantObj b) "colors" = b.colors.isSome
      ∧ hasKey (quantObj b) "palette" = b.palette.isSome
      ∧ hasKey (quantObj b) "dither" = b.dither.isSome
      ∧ (∀ e ∈ quantObj b, e.1 = "colors" ∨ e.1 = "palette" ∨ e.1 = "dither")
      ∧ (∀ p, b.palette = some (PaletteChoice.preset p) →
          List.lookup "palette" (quantObj b) = some (JVal.jstr p.value))
      ∧ (∀ l, b.palette = some (PaletteChoice.custom l) →
          List.lookup "palette" (quantObj b) = some (JVal.jarr (l.map JVal.jstr))) := by
  refine ⟨?_, ?_, ?_, ?_, ?_, ?_, ?_, ?_⟩
  · rw [hasKey_buildPayload_quantize]
    simp [has_quantize, Option.isSome_iff_ne_none, or_assoc]
  · intro h
    rw [lookup_buildPayload_quantize, h]
    rfl
  · show (quantObj b).any (fun e => "colors" == e.1) = b.colors.isSome
    simp [quantObj, List.any_append, any_optE, any_paletteEntry]
  · show (quantObj b).any (fun e => "palette" == e.1) = b.palette.isSome
    simp [quantObj, List.any_append, any_optE, any_paletteEntry]
  · show (quantObj b).any (fun e => "dither" == e.1) = b.dither.isSome
    simp [quantObj, List.any_append, any_optE, any_paletteEntry]
  · intro e he
    simp only [quantObj, List.append_assoc, List.mem_append] at he
    rcases he with h | h | h
    · exact Or.inl (fst_of_mem_optE h)
    · exact Or.inr (Or.inl (fst_of_mem_paletteEntry h))
    · exact Or.inr (Or.inr (fst_of_mem_optE h))
  · intro p hp
    rw [quantObj, List.append_assoc, lookup_optE_ne _ _ _ _ _ (by decide), hp]
    simp [paletteEntry, List.lookup]
  · intro l hl
    rw [quantObj, List.append_assoc, lookup_optE_ne _ _ _ _ _ (by decide), hl]
    simp [paletteEntry, List.lookup]

/-- C2 witness: a builder with only a custom palette set has a `quantize`
key whose object holds only the literal palette sequence. -/
theorem quantize_key_and_members_witness :
    List.lookup "quantize"
        (((mkForgeClient "http://h").render_html "x").setPalette
          (PaletteChoice.custom ["#000000", "#ffffff"])).buildPayload
      = some (JVal.jobj [("palette", JVal.jarr [JVal.jstr "#000000", JVal.jstr "#ffffff"])]) := by
  have h := quantize_key_and_members
    (((mkForgeClient "http://h").render_html "x").setPalette
      (PaletteChoice.custom ["#000000", "#ffffff"]))
  rw [h.2.1 (by rfl)]
  rfl

/-- C6: two file-attach calls append two embedded-file entries in call
order, the payload's pdf.embedded_files preserves that order, and each entry
carries path and data plus exactly the supplied optional members. -/
theorem attach_appends_in_order (b : RenderRequestBuilder)
    (p₁ d₁ : String) (m₁ de₁ : Option String) (r₁ : Option EmbedRelationship)
    (p₂ d₂ : String) (m₂ de₂ : Option String) (r₂ : Option EmbedRelationship) :
    ((b.pdf_attach p₁ d₁ m₁ de₁ r₁).pdf_attach p₂ d₂ m₂ de₂ r₂).pdf_embedded_files
        = b.pdf_embedded_files
            ++ [attachEntry p₁ d₁ m₁ de₁ r₁, attachEntry p₂ d₂ m₂ de₂ r₂]
      ∧ List.lookup "embedded_files"
          (pdfObj ((b.pdf_attach p₁ d₁ m₁ de₁ r₁).pdf_attach p₂ d₂ m₂ de₂ r₂))
        = some (JVal.jarr ((b.pdf_embedded_files
            ++ [attachEntry p₁ d₁ m₁ de₁ r₁, attachEntry p₂ d₂ m₂ de₂ r₂]).map JVal.jobj))
      ∧ List.lookup "pdf"
          ((b.pdf_attach p₁ d₁ m₁ de₁ r₁).pdf_attach p₂ d₂ m₂ de₂ r₂).buildPayload
        = some (JVal.jobj
            (pdfObj ((b.pdf_attach p₁ d₁ m₁ de₁ r₁).pdf_attach p₂ d₂ m₂ de₂ r₂)))
      ∧ (∀ (p d : String) (m de : Option String) (r : Option EmbedRelationship),
          (attachEntry p d m de r).map Prod.fst
            = ["path", "data"]
                ++ (match m with | some _ => ["mime_type"] | none => [])
                ++ (match de with | some _ => ["description"] | none => [])
                ++ (match r with | some _ => ["relationship"] | none => [])
            ∧ List.lookup "path" (attachEntry p d m de r) = some (JVal.jstr p)
            ∧ List.lookup "data" (attachEntry p d m de r) = some (JVal.jstr d)
            ∧ List.lookup "mime_type" (attachEntry p d m de r) = m.map JVal.jstr
            ∧ List.lookup "description" (attachEntry p d m de r) = de.map JVal.jstr
            ∧ List.lookup "relationship" (attachEntry p d m de r)
                = r.map (fun x => JVal.jstr x.value)) := by
  have hfiles : ((b.pdf_attach p₁ d₁ m₁ de₁ r₁).pdf_attach p₂ d₂ m₂ de₂ r₂).pdf_embedded_files
      = b.pdf_embedded_files
          ++ [attachEntry p₁ d₁ m₁ de₁ r₁, attachEntry p₂ d₂ m₂ de₂ r₂] := by
    simp [pdf_attach, List.append_assoc]
  have hne : ((b.pdf_attach p₁ d₁ m₁ de₁ r₁).pdf_attach p₂ d₂ m₂ de₂ r₂).pdf_embedded_files.isEmpty
      = false := by
    rw [hfiles]
    simp
  refine ⟨hfiles, ?_, ?_, ?_⟩
  · simp only [pdfObj, List.append_assoc]
    rw [lookup_optE_ne _ _ _ _ _ (by decide), lookup_optE_ne _ _ _ _ _ (by decide),
      lookup_optE_ne _ _ _ _ _ (by decide), lookup_optE_ne _ _ _ _ _ (by decide),
      lookup_optE_ne _ _ _ _ _ (by decide), lookup_optE_ne _ _ _ _ _ (by decide),
      lookup_optE_ne _ _ _ _ _ (by decide)]
    unfold embeddedEntries
    rw [hne, hfiles]
    simp [List.lookup]
  · have hpdf : has_pdf ((b.pdf_attach p₁ d₁ m₁ de₁ r₁).pdf_attach p₂ d₂ m₂ de₂ r₂) = true := by
      simp [has_pdf, hne]
    rw [lookup_buildPayload_pdf, hpdf]
    rfl
  · intro p d m de r
    refine ⟨?_, ?_, ?_, ?_, ?_, ?_⟩ <;>
      cases m <;> cases de <;> cases r <;> simp [attachEntry, List.lookup]

/-- Two calls of different setters commute on the builder state: they write
disjoint fields (the accumulating attach/barcode setters only ever touch
their own sequence). -/
theorem setter_comm (s t : SetterCall) (h : s.tag ≠ t.tag) (b : RenderRequestBuilder) :
    t.apply (s.apply b) = s.apply (t.apply b) := by
  cases s <;> cases t <;> first
    | exact absurd rfl h
    | rfl

/-- C4: applying a set of setter calls, each setter called at most once, in
two different orders produces the same builder state, so the payload and in
particular the presence or absence of every payload key is independent of
call order. -/
theorem payload_keys_order_independent (l₁ l₂ : List SetterCall)
    (b : RenderRequestBuilder) (hperm : List.Perm l₁ l₂)
    (honce : l₁.Pairwise (fun s t => s.tag ≠ t.tag)) :
    applySetters l₁ b = applySetters l₂ b
      ∧ ∀ k, hasKey (applySetters l₁ b).buildPayload k
          = hasKey (applySetters l₂ b).buildPayload k := by
  have hsym : Symmetric (fun s t : SetterCall => s.tag ≠ t.tag) := fun a c hac => Ne.symm hac
  have comm : ∀ x ∈ l₁, ∀ y ∈ l₁, ∀ z : RenderRequestBuilder,
      SetterCall.apply y (SetterCall.apply x z) = SetterCall.apply x (SetterCall.apply y z) := by
    intro x hx y hy z
    by_cases hxy : x = y
    · rw [hxy]
    · exact setter_comm x y (honce.forall hsym hx hy hxy) z
  have hstate : applySetters l₁ b = applySetters l₂ b := hperm.foldl_eq' comm b
  exact ⟨hstate, fun k => by rw [hstate]⟩

/-- C4 witness: setting width then colors and colors then width yield the
same key set, checked on the quantize key. -/
theorem payload_keys_order_independent_witness :
    hasKey (applySetters [SetterCall.cWidth 640, SetterCall.cColors 16]
        ((mkForgeClient "http://h").render_html "x")).buildPayload "quantize"
      = hasKey (applySetters [SetterCall.cColors 16, SetterCall.cWidth 640]
        ((mkForgeClient "http://h").render_html "x")).buildPayload "quantize" :=
  (payload_keys_order_independent
      [SetterCall.cWidth 640, SetterCall.cColors 16]
      [SetterCall.cColors 16, SetterCall.cWidth 640]
      ((mkForgeClient "http://h").render_html "x")
      (List.Perm.swap (SetterCall.cColors 16) (SetterCall.cWidth 640) [])
      (by simp [SetterCall.tag])).2 "quantize"

/-- C5: send_sync maps a transport-level failure to a connection error and
never a server error; a response with status other than 200 to a server
error carrying that status and the `error` string of the JSON body, falling
back to `HTTP <status>` when the body is unparseable or lacks the field; and
a 200 response to the raw content bytes. The async send behaves
identically. -/
theorem send_outcome_classification (b : RenderRequestBuilder) (e : String) (r : HttpResponse) :
    b.send_sync (fun _ _ => HttpOutcome.transportError e) = SendResult.connectionError e
      ∧ (∀ st msg, b.send_sync (fun _ _ => HttpOutcome.transportError e)
          ≠ SendResult.serverError st msg)
      ∧ (r.status ≠ 200 →
          b.send_sync (fun _ _ => HttpOutcome.response r)
            = SendResult.serverError r.status (errorMessage r))
      ∧ (r.jsonBody = none → errorMessage r = "HTTP " ++ toString r.status)
      ∧ (∀ body m, r.jsonBody = some body → body.lookup "error" = some m →
          errorMessage r = m)
      ∧ (∀ body, r.jsonBody = some body → body.lookup "error" = none →
          errorMessage r = "HTTP " ++ toString r.status)
      ∧ (r.status = 200 →
          b.send_sync (fun _ _ => HttpOutcome.response r) = SendResult.success r.content)
      ∧ b.send (fun _ _ => HttpOutcome.transportError e)
          = b.send_sync (fun _ _ => HttpOutcome.transportError e)
      ∧ b.send (fun _ _ => HttpOutcome.response r)
          = b.send_sync (fun _ _ => HttpOutcome.response r) := by
  refine ⟨rfl, ?_, ?_, ?_, ?_, ?_, ?_, rfl, rfl⟩
  · intro st msg hc
    exact SendResult.noConfusion hc
  · intro h
    simp [RenderRequestBuilder.send_sync, h]
  · intro h
    simp [errorMessage, h]
  · intro body m hb hm
    simp [errorMessage, hb, hm]
  · intro body hb hm
    simp [errorMessage, hb, hm]
  · intro h
    simp [RenderRequestBuilder.send_sync, h]

/-- C5 witness: a 400 response with body error field yields
serverError 400 with message bad request, and a transport failure yields a
connection error. -/
theorem send_outcome_classification_witness :
    ((mkForgeClient "http://h").render_html "x").send_sync
        (fun _ _ => HttpOutcome.response
          { status := 400, jsonBody := some [("error", "bad request")], content := [] })
      = SendResult.serverError 400 "bad request"
      ∧ ((mkForgeClient "http://h").render_html "x").send_sync
          (fun _ _ => HttpOutcome.transportError "connection refused")
        = SendResult.connectionError "connection refused" := by
  have h := send_outcome_classification ((mkForgeClient "http://h").render_html "x")
    "connection refused"
    { status := 400, jsonBody := some [("error", "bad request")], content := [] }
  refine ⟨?_, h.1⟩
  rw [h.2.2.1 (by decide), h.2.2.2.2.1 [("error", "bad request")] "bad request" rfl rfl]

/-- C7: the health check folds a transport failure and every non-200 status
to false, and is true exactly when the status is 200, in both the sync and
async forms; it is a total boolean function, never raising for
network-level failures. -/
theorem health_outcome_classification (c : ForgeClient) (e : String) (r : HttpResponse) :
    c.health_sync (fun _ => HttpOutcome.transportError e) = false
      ∧ c.health (fun _ => HttpOutcome.transportError e) = false
      ∧ (r.status ≠ 200 → c.health_sync (fun _ => HttpOutcome.response r) = false)
      ∧ (r.status ≠ 200 → c.health (fun _ => HttpOutcome.response r) = false)
      ∧ (c.health_sync (fun _ => HttpOutcome.response r) = true ↔ r.status = 200)
      ∧ (c.health (fun _ => HttpOutcome.response r) = true ↔ r.status = 200) := by
  refine ⟨rfl, rfl, ?_, ?_, ?_, ?_⟩
  · intro h
    simp [ForgeClient.health_sync, h]
  · intro h
    simp [ForgeClient.health, h]
  · simp [ForgeClient.health_sync]
  · simp [ForgeClient.health]

/-- C7 witness: health_sync is false on connection refused and on a 500
response, true on a 200 response. -/
theorem health_outcome_classification_witness :
    (mkForgeClient "http://h").health_sync (fun _ => HttpOutcome.transportError "refused") = false
      ∧ (mkForgeClient "http://h").health_sync
          (fun _ => HttpOutcome.response { status := 500, jsonBody := none, content := [] })
        = false
      ∧ (mkForgeClient "http://h").health_sync
          (fun _ => HttpOutcome.response { status := 200, jsonBody := none, content := [] })
        = true := by
  have h500 := health_outcome_classification (mkForgeClient "http://h") "refused"
    { status := 500, jsonBody := none, content := [] }
  have h200 := health_outcome_classification (mkForgeClient "http://h") "refused"
    { status := 200, jsonBody := none, content := [] }
  exact ⟨h500.1, h500.2.2.1 (by decide), h200.2.2.2.2.1.mpr rfl⟩

/-- C8: for every builder state and every transport behavior, the async
send and the blocking send_sync produce the identical result: same payload
built from the same state, same target URL, same error classification. -/
theorem send_refines_send_sync (b : RenderRequestBuilder)
    (net : String → Payload → HttpOutcome) :
    b.send net = b.send_sync net := by
  rfl

/-- C9: building the payload leaves every builder field, including the
embedded-files sequence, unchanged, and two consecutive builds return equal
payloads, so a re-sent builder issues the same request. -/
theorem buildPayload_pure (b : RenderRequestBuilder) :
    (b.buildPayloadSt.1 = b
      ∧ b.buildPayloadSt.1.pdf_embedded_files = b.pdf_embedded_files)
      ∧ b.buildPayloadSt.1.buildPayloadSt.2 = b.buildPayloadSt.2
      ∧ (∀ net, b.buildPayloadSt.1.send net = b.send net) :=
  ⟨⟨rfl, rfl⟩, rfl, fun _ => rfl⟩

/-- Stripping trailing slashes absorbs any appended run of slashes. -/
theorem rstripSlashes_append_replicate (l : List Char) (n : Nat) :
    rstripSlashes (l ++ List.replicate n '/') = rstripSlashes l := by
  unfold rstripSlashes
  rw [List.reverse_append, List.reverse_replicate]
  congr 1
  induction n with
  | zero => simp
  | succ m ih => simp [List.replicate_succ, List.dropWhile, ih]

/-- C10: the client strips all trailing slashes of the base URL at
construction: two clients whose URLs differ only in trailing slashes are
equal and hence target identical health and render URLs, which are the
stripped base followed by /health and /render. -/
theorem base_url_normalization (u : String) (m n : Nat) :
    mkForgeClient (u ++ String.mk (List.replicate m '/'))
        = mkForgeClient (u ++ String.mk (List.replicate n '/'))
      ∧ healthUrl (mkForgeClient (u ++ String.mk (List.replicate m '/')))
        = healthUrl (mkForgeClient u)
      ∧ renderUrl (mkForgeClient (u ++ String.mk (List.replicate m '/')))
        = renderUrl (mkForgeClient u)
      ∧ healthUrl (mkForgeClient u) = String.mk (rstripSlashes u.data) ++ "/health"
      ∧ renderUrl (mkForgeClient u) = String.mk (rstripSlashes u.data) ++ "/render" := by
  have key : ∀ k : Nat, mkForgeClient (u ++ String.mk (List.replicate k '/')) = mkForgeClient u := by
    intro k
    unfold mkForgeClient
    rw [String.data_append]
    rw [rstripSlashes_append_replicate]
  exact ⟨(key m).trans (key n).symm, by rw [key m], by rw [key m], rfl, rfl⟩

end ForgeSdk
